import Mathlib

/-!
Verification development for the gitfucktime repository.

The Python modules `gitfucktime/utils.py`, `gitfucktime/core.py` and
`gitfucktime/main.py` (and the standalone `gitfucktime.py`, whose
corresponding functions are line-for-line identical) are shallowly embedded
below.  Machine-level concerns are modelled explicitly: Python `datetime`
values become a record of a day index plus time-of-day fields, the
`random` module becomes a deterministic stream of draws, and the unbounded
`while True` rejection loop becomes a fuel-indexed function whose `none`
result means "the loop has not returned after this many iterations".
-/

namespace GitFuckTime

/-- Python `datetime.datetime` restricted to the fields the program reads or
writes: `day` counts days since 1970-01-01 (a Thursday); `hour`, `minute`,
`second` are the time-of-day fields.  All values the program constructs keep
the time fields in range; comparisons go through `toSeconds`. -/
structure PyDateTime where
  day : Int
  hour : Int
  minute : Int
  second : Int
deriving Repr, DecidableEq

/-- Total seconds since the epoch; Python compares `datetime` values in this
order when the fields are in range. -/
def toSeconds (d : PyDateTime) : Int :=
  d.day * 86400 + d.hour * 3600 + d.minute * 60 + d.second

/-- Python `date.weekday()`: Monday = 0 … Sunday = 6.  Day 0 of the model
(1970-01-01) was a Thursday, hence the offset 3. -/
def weekday (d : PyDateTime) : Int :=
  (d.day + 3) % 7

/-- `utils.is_work_day` (utils.py lines 14-16): true iff the weekday is
Monday through Friday. -/
def is_work_day (d : PyDateTime) : Bool :=
  weekday d < 5

/-- `start + datetime.timedelta(days = k)`: shifts the day, keeps the time. -/
def addDays (d : PyDateTime) (k : Int) : PyDateTime :=
  { d with day := d.day + k }

/-- `d.replace(hour = h, minute = m, second = s)`. -/
def replaceTime (d : PyDateTime) (h m s : Int) : PyDateTime :=
  { d with hour := h, minute := m, second := s }

/-- `(b - a).days` for Python datetimes: `timedelta` normalises with floor
division of the total seconds by 86400. -/
def diffDays (a b : PyDateTime) : Int :=
  (toSeconds b - toSeconds a).fdiv 86400

/-- Deterministic model of Python's `random` module: a stream of raw draws
plus a position.  Each call to `randint` consumes one draw. -/
structure Rng where
  stream : Nat → Nat
  pos : Nat

/-- `random.randint(a, b)`: returns a value in `[a, b]` (both ends
inclusive) and advances the stream.  Mapping the raw draw by `% (b - a + 1)`
makes every sequence of in-range results realizable by some stream. -/
def randint (a b : Int) (g : Rng) : Int × Rng :=
  (a + (g.stream g.pos : Int) % (b - a + 1), ⟨g.stream, g.pos + 1⟩)

/-- The `while True` rejection loop of `utils.generate_work_hours_timestamp`
(utils.py lines 22-31).  `total_days` is computed once before the loop; the
fuel argument counts loop iterations, and `none` means the loop has not
returned within that many iterations. -/
def work_hours_loop (start_date : PyDateTime) (total_days : Int) :
    Rng → Nat → Option (PyDateTime × Rng)
  | _, 0 => none
  | g, fuel + 1 =>
    let dr := randint 0 total_days g
    let target_date := addDays start_date dr.1
    if is_work_day target_date then
      let hr := randint 9 16 dr.2
      let mr := randint 0 59 hr.2
      let sr := randint 0 59 mr.2
      some (replaceTime target_date hr.1 mr.1 sr.1, sr.2)
    else
      work_hours_loop start_date total_days dr.2 fuel

/-- `utils.generate_work_hours_timestamp(start_date, end_date)` (utils.py
lines 18-31): `total_days = (end_date - start_date).days + 1`, then the
rejection loop.  The function takes exactly these two date arguments; it has
no maximum-instant parameter (the packaged `main.py` line 353 nevertheless
passes `max_time=now`, which raises `TypeError` in Python). -/
def generate_work_hours_timestamp (start_date end_date : PyDateTime)
    (g : Rng) (fuel : Nat) : Option (PyDateTime × Rng) :=
  work_hours_loop start_date (diffDays start_date end_date + 1) g fuel

/-- The generated instant alone, discarding the advanced random state. -/
def genInstant (start_date end_date : PyDateTime) (g : Rng) (fuel : Nat) :
    Option PyDateTime :=
  (generate_work_hours_timestamp start_date end_date g fuel).map Prod.fst

/-- A stream whose first draw is `v` and whose later draws are all zero. -/
def streamFirst (v : Nat) : Rng :=
  ⟨fun n => if n = 0 then v else 0, 0⟩

/-- Claim C2: with the window Monday 1970-01-05 00:00:00 to Tuesday
1970-01-06 23:59:59 (which satisfies start ≤ end and contains business
days), the draw `random_days = 2` makes `generate_work_hours_timestamp`
return Wednesday 1970-01-07 09:00:00, an instant strictly later than the
window's end: `randint(0, (end-start).days + 1)` is inclusive on both ends,
so the sampled day can lie one day past the window. -/
theorem c2_instant_past_window_end :
    genInstant ⟨4, 0, 0, 0⟩ ⟨5, 23, 59, 59⟩ (streamFirst 2) 1 =
      some ⟨6, 9, 0, 0⟩ ∧
    toSeconds (⟨6, 9, 0, 0⟩ : PyDateTime) >
      toSeconds (⟨5, 23, 59, 59⟩ : PyDateTime) := by
  constructor
  · rfl
  · decide

/-- Claim C3: `utils.generate_work_hours_timestamp` has no maximum-instant
parameter and performs no clamping: with the window Monday 1970-01-05 and
current time 08:00:00 that same morning, the generator returns 09:00:00,
an instant strictly later than "now". -/
theorem c3_instant_exceeds_now :
    genInstant ⟨4, 0, 0, 0⟩ ⟨4, 0, 0, 0⟩ (streamFirst 0) 1 =
      some ⟨4, 9, 0, 0⟩ ∧
    toSeconds (⟨4, 9, 0, 0⟩ : PyDateTime) >
      toSeconds (⟨4, 8, 0, 0⟩ : PyDateTime) := by
  constructor
  · rfl
  · decide

/-! ## Timestamp allocation (main.py lines 351-362, gitfucktime.py 232-241)

The main program draws one sample per selected commit, sorts the samples
ascending (`timestamps.sort()`), and assigns the i-th sorted sample to the
i-th commit of the selection (the selection being in ancestor-to-descendant
order after `reverse_order=True`). -/

/-- Python's `datetime` ordering, the relation `timestamps.sort()` sorts by. -/
def dtLe (a b : PyDateTime) : Prop :=
  toSeconds a ≤ toSeconds b

instance : DecidableRel dtLe := fun a b =>
  inferInstanceAs (Decidable (toSeconds a ≤ toSeconds b))

instance : IsTotal PyDateTime dtLe :=
  ⟨fun a b => Int.le_total (toSeconds a) (toSeconds b)⟩

instance : IsTrans PyDateTime dtLe :=
  ⟨fun _ _ _ hab hbc => le_trans hab hbc⟩

instance : IsRefl PyDateTime dtLe :=
  ⟨fun a => le_refl (toSeconds a)⟩

/-- The sampling loop `for _ in range(len(commits)): timestamps.append(
generate_work_hours_timestamp(start_date, end_date))`, threading the random
state; `none` when some iteration's rejection loop exhausts its fuel. -/
def gen_list (s e : PyDateTime) : Rng → Nat → Nat → Option (List PyDateTime × Rng)
  | g, 0, _ => some ([], g)
  | g, n + 1, fuel =>
    match generate_work_hours_timestamp s e g fuel with
    | none => none
    | some (t, g1) =>
      match gen_list s e g1 n fuel with
      | none => none
      | some (ts, g2) => some (t :: ts, g2)

/-- `allocate`: draw `n` samples, then `timestamps.sort()` ascending.
Python's sort is modelled by `List.insertionSort` under the `datetime`
order; the program only relies on the output being a sorted permutation of
the samples, which any comparison sort provides.  The resulting list is the
timestamp plan: index `i` is assigned to the `i`-th commit of the selection
(main.py lines 360-362). -/
def allocate (s e : PyDateTime) (g : Rng) (n fuel : Nat) :
    Option (List PyDateTime) :=
  (gen_list s e g n fuel).map (fun p => p.1.insertionSort dtLe)

/-- Claim C1: in every produced timestamp plan, if commit A precedes commit
B in the selection's ancestor-to-descendant order (index i ≤ index j), then
the instant assigned to A is at most the instant assigned to B — the plan is
the ascending sort of the drawn samples, assigned by position. -/
theorem c1_allocation_monotone (s e : PyDateTime) (g : Rng) (n fuel : Nat)
    (ts : List PyDateTime) (hts : allocate s e g n fuel = some ts)
    (i j : Nat) (hi : i < ts.length) (hj : j < ts.length) (hij : i ≤ j) :
    toSeconds (ts.get ⟨i, hi⟩) ≤ toSeconds (ts.get ⟨j, hj⟩) := by
  have hsorted : ts.Sorted dtLe := by
    unfold allocate at hts
    cases hgen : gen_list s e g n fuel with
    | none => rw [hgen] at hts; exact absurd hts (by simp)
    | some p =>
      rw [hgen] at hts
      simp only [Option.map_some'] at hts
      rw [← Option.some_inj.mp hts]
      exact List.sorted_insertionSort dtLe p.1
  exact hsorted.rel_get_of_le (Fin.mk_le_mk.mpr hij)

/-- Witness for claim C1 at a concrete run: a two-commit selection over the
Monday 1970-01-05 single-day window with the all-zero draw stream. -/
theorem c1_allocation_monotone_witness :
    toSeconds (([⟨4, 9, 0, 0⟩, ⟨4, 9, 0, 0⟩] : List PyDateTime).get ⟨0, by decide⟩) ≤
      toSeconds (([⟨4, 9, 0, 0⟩, ⟨4, 9, 0, 0⟩] : List PyDateTime).get ⟨1, by decide⟩) :=
  c1_allocation_monotone ⟨4, 0, 0, 0⟩ ⟨4, 0, 0, 0⟩ (streamFirst 0) 2 1
    [⟨4, 9, 0, 0⟩, ⟨4, 9, 0, 0⟩] (by decide) 0 1 (by decide) (by decide)
    (by decide)

/-- Every instant the rejection loop returns is on a business day with hour
drawn in `[9, 16]` and minute and second in `[0, 59]` (utils.py lines
26-31). -/
theorem work_hours_loop_mem {s : PyDateTime} {td : Int} :
    ∀ {g : Rng} {fuel : Nat} {t : PyDateTime} {g' : Rng},
      work_hours_loop s td g fuel = some (t, g') →
      is_work_day t = true ∧ 9 ≤ t.hour ∧ t.hour < 17 ∧
        0 ≤ t.minute ∧ t.minute < 60 ∧ 0 ≤ t.second ∧ t.second < 60 := by
  intro g fuel
  induction fuel generalizing g with
  | zero => intro t g' h; exact Option.noConfusion h
  | succ fuel ih =>
    intro t g' h
    simp only [work_hours_loop] at h
    split at h
    case isTrue hw =>
      simp only [Option.some.injEq, Prod.mk.injEq] at h
      obtain ⟨ht, -⟩ := h
      subst ht
      refine ⟨hw, ?_, ?_, ?_, ?_, ?_, ?_⟩ <;>
        · simp only [replaceTime, randint]
          omega
    case isFalse hw =>
      exact ih h

/-- Every sample produced by the sampling loop over the generator is a
business-day instant with hour in `[9, 16]` and minute and second in
`[0, 59]`. -/
theorem gen_list_mem {s e : PyDateTime} :
    ∀ {g : Rng} {n fuel : Nat} {ts : List PyDateTime} {g' : Rng},
      gen_list s e g n fuel = some (ts, g') → ∀ t ∈ ts,
        is_work_day t = true ∧ 9 ≤ t.hour ∧ t.hour < 17 ∧
          0 ≤ t.minute ∧ t.minute < 60 ∧ 0 ≤ t.second ∧ t.second < 60 := by
  intro g n
  induction n generalizing g with
  | zero =>
    intro fuel ts g' h t ht
    simp only [gen_list, Option.some.injEq, Prod.mk.injEq] at h
    obtain ⟨rfl, -⟩ := h
    exact absurd ht (List.not_mem_nil t)
  | succ n ih =>
    intro fuel ts g' h t ht
    simp only [gen_list] at h
    cases hg : generate_work_hours_timestamp s e g fuel with
    | none => rw [hg] at h; exact Option.noConfusion h
    | some p =>
      obtain ⟨t1, g1⟩ := p
      rw [hg] at h
      dsimp only at h
      cases hrest : gen_list s e g1 n fuel with
      | none => rw [hrest] at h; exact Option.noConfusion h
      | some q =>
        obtain ⟨ts1, g2⟩ := q
        rw [hrest] at h
        simp only [Option.some.injEq, Prod.mk.injEq] at h
        obtain ⟨rfl, -⟩ := h
        rcases List.mem_cons.mp ht with rfl | hmem
        · exact work_hours_loop_mem hg
        · exact ih hrest t hmem

/-- Claim C5: every instant assigned by a generated timestamp plan falls on
a weekday Monday through Friday with hour in `[9, 17)` and minute and
second in `[0, 60)`. -/
theorem c5_plan_business_hours (s e : PyDateTime) (g : Rng) (n fuel : Nat)
    (ts : List PyDateTime) (hts : allocate s e g n fuel = some ts)
    (t : PyDateTime) (ht : t ∈ ts) :
    is_work_day t = true ∧ 9 ≤ t.hour ∧ t.hour < 17 ∧
      0 ≤ t.minute ∧ t.minute < 60 ∧ 0 ≤ t.second ∧ t.second < 60 := by
  unfold allocate at hts
  cases hgen : gen_list s e g n fuel with
  | none => rw [hgen] at hts; exact Option.noConfusion hts
  | some p =>
    rw [hgen] at hts
    simp only [Option.map_some'] at hts
    have hmem : t ∈ p.1 := by
      rw [← Option.some_inj.mp hts] at ht
      exact (List.mem_insertionSort dtLe).mp ht
    have hp : gen_list s e g n fuel = some (p.1, p.2) := by rw [hgen]
    exact gen_list_mem hp t hmem

/-- Witness for claim C5 at a concrete run: a one-commit plan over the
Monday 1970-01-05 window with the all-zero draw stream, whose single
instant is Monday 09:00:00. -/
theorem c5_plan_business_hours_witness :
    is_work_day (⟨4, 9, 0, 0⟩ : PyDateTime) = true ∧
      9 ≤ (⟨4, 9, 0, 0⟩ : PyDateTime).hour ∧
      (⟨4, 9, 0, 0⟩ : PyDateTime).hour < 17 ∧
      0 ≤ (⟨4, 9, 0, 0⟩ : PyDateTime).minute ∧
      (⟨4, 9, 0, 0⟩ : PyDateTime).minute < 60 ∧
      0 ≤ (⟨4, 9, 0, 0⟩ : PyDateTime).second ∧
      (⟨4, 9, 0, 0⟩ : PyDateTime).second < 60 :=
  c5_plan_business_hours ⟨4, 0, 0, 0⟩ ⟨4, 0, 0, 0⟩ (streamFirst 0) 1 1
    [⟨4, 9, 0, 0⟩] (by decide) ⟨4, 9, 0, 0⟩ (by decide)

/-! ## Empty windows (claim C4)

The Saturday 1970-01-03 single-day window: start at midnight, end at
23:59:59 as `main.py` line 247 builds it.  Its candidate days (offsets 0 and
1 of `randint(0, total_days)`) are Saturday and Sunday, so the rejection
loop never accepts.  No `EmptyWindowError` (or any other error) exists
anywhere in the source. -/

/-- The rejection loop over the Saturday single-day window rejects every
draw: for every stream and every number of iterations it has not
returned. -/
theorem sat_window_loop_none :
    ∀ (fuel : Nat) (g : Rng), work_hours_loop ⟨2, 0, 0, 0⟩ 1 g fuel = none := by
  intro fuel
  induction fuel with
  | zero => intro g; rfl
  | succ fuel ih =>
    intro g
    simp only [work_hours_loop]
    have hnw : is_work_day (addDays ⟨2, 0, 0, 0⟩ (randint 0 1 g).1) = false := by
      simp only [is_work_day, weekday, addDays, randint,
        decide_eq_false_iff_not, not_lt]
      omega
    rw [hnw]
    simp only [Bool.false_eq_true, if_false]
    exact ih _

/-- `generate_work_hours_timestamp` on the Saturday window returns nothing
for any stream and any fuel. -/
theorem sat_window_gen_none (g : Rng) (fuel : Nat) :
    generate_work_hours_timestamp ⟨2, 0, 0, 0⟩ ⟨2, 23, 59, 59⟩ g fuel = none := by
  unfold generate_work_hours_timestamp
  have h1 : diffDays ⟨2, 0, 0, 0⟩ ⟨2, 23, 59, 59⟩ + 1 = 1 := by decide
  rw [h1]
  exact sat_window_loop_none fuel g

/-- The rejection loop terminates on the given window and stream: some
number of iterations returns an instant. -/
def gen_terminates (s e : PyDateTime) (g : Rng) : Prop :=
  ∃ fuel out, generate_work_hours_timestamp s e g fuel = some out

/-- Claim C4 fails on the code: on the empty window (start == end falling
on Saturday 1970-01-03) the generator does not terminate with an
`EmptyWindowError` — no such error exists in the source — instead the
`while True` loop never returns. -/
theorem c4_empty_window_no_error :
    ¬ gen_terminates ⟨2, 0, 0, 0⟩ ⟨2, 23, 59, 59⟩ (streamFirst 0) := by
  rintro ⟨fuel, out, hout⟩
  rw [sat_window_gen_none] at hout
  exact Option.noConfusion hout

/-- Claim C4, amended to what the code does: on the Saturday empty window
the generator never returns for any draw stream and any number of loop
iterations (the code loops forever and raises nothing), so the allocator
produces no plan for any positive commit count and the rewrite stage is
never reached; and on any window, the generator returns an instant as soon
as an iteration draws a business day. -/
theorem c4_empty_window_behavior :
    (∀ (g : Rng) (fuel : Nat),
      generate_work_hours_timestamp ⟨2, 0, 0, 0⟩ ⟨2, 23, 59, 59⟩ g fuel = none) ∧
    (∀ (g : Rng) (n fuel : Nat),
      allocate ⟨2, 0, 0, 0⟩ ⟨2, 23, 59, 59⟩ g (n + 1) fuel = none) ∧
    (∀ (s e : PyDateTime) (g : Rng) (fuel : Nat),
      is_work_day (addDays s (randint 0 (diffDays s e + 1) g).1) = true →
        (generate_work_hours_timestamp s e g (fuel + 1)).isSome = true) := by
  refine ⟨sat_window_gen_none, ?_, ?_⟩
  · intro g n fuel
    simp only [allocate, gen_list, sat_window_gen_none, Option.map_none']
  · intro s e g fuel hw
    simp only [generate_work_hours_timestamp, work_hours_loop, hw, if_true,
      Option.isSome_some]

/-! ## Window auto-derivation and the future-end check (claim C6) -/

/-- main.py lines 282-286: when no explicit end date is given, the end
derives as `start_date + timedelta(days=max(1, len(commits) - 1))` with the
time then replaced by 23:59:59. -/
def auto_end (start_date : PyDateTime) (days_needed : Nat) : PyDateTime :=
  replaceTime (addDays start_date (max 1 ((days_needed : Int) - 1))) 23 59 59

/-- Outcome of the future-end check of main.py lines 301-318. -/
inductive DateCheck
  | proceed (end_date : PyDateTime)
  | cancelled
  | failed
deriving Repr, DecidableEq

/-- main.py lines 301-318: if the end date is past "now", then either the
user is asked to confirm a future window (when `args.end` was given, or
when none of `--unpushed`, `--last`, `--first` is set), or — auto-derived
end with a selection flag — the end is capped at "now" and `start <= end`
is re-validated. -/
def check_future_end (end_given unpushed lastFlag firstFlag : Bool)
    (start_date end_date now : PyDateTime) (confirm : Bool) : DateCheck :=
  if toSeconds end_date > toSeconds now then
    if end_given || (!unpushed && !lastFlag && !firstFlag) then
      if confirm then .proceed end_date else .cancelled
    else
      if toSeconds start_date > toSeconds now then .failed
      else .proceed now
  else .proceed end_date

/-- Claim C6 fails on the code for runs without a selection flag: with no
explicit end, 5 commits, start Thursday 1970-01-01, "now" one day later,
and the user confirming, the auto-derived end 1970-01-05 23:59:59 is handed
on unclamped even though it exceeds "now" — the clamp branch is only taken
when `--unpushed`, `--last` or `--first` is set. -/
theorem c6_flagless_future_end_not_clamped :
    check_future_end false false false false ⟨0, 0, 0, 0⟩
        (auto_end ⟨0, 0, 0, 0⟩ 5) ⟨1, 0, 0, 0⟩ true =
      DateCheck.proceed ⟨4, 23, 59, 59⟩ ∧
    toSeconds (⟨4, 23, 59, 59⟩ : PyDateTime) >
      toSeconds (⟨1, 0, 0, 0⟩ : PyDateTime) := by
  decide

/-- Claim C6, amended: for N selected commits with no explicit end date the
derived end is start plus `max 1 (N - 1)` days with time 23:59:59; and when
additionally a selection flag (`--unpushed`, `--last` or `--first`) is set
and the derived end exceeds "now", the end is clamped to "now", failing if
the clamp inverts the window.  (Without a selection flag the code instead
asks the user to confirm the future window.) -/
theorem c6_auto_end_clamped (start_date now : PyDateTime) (n : Nat)
    (unpushed lastFlag firstFlag confirm : Bool)
    (hflag : (unpushed || lastFlag || firstFlag) = true)
    (hfut : toSeconds (auto_end start_date n) > toSeconds now) :
    (auto_end start_date n).day = start_date.day + max 1 ((n : Int) - 1) ∧
    (auto_end start_date n).hour = 23 ∧
    (auto_end start_date n).minute = 59 ∧
    (auto_end start_date n).second = 59 ∧
    check_future_end false unpushed lastFlag firstFlag start_date
        (auto_end start_date n) now confirm =
      (if toSeconds start_date > toSeconds now then DateCheck.failed
        else DateCheck.proceed now) := by
  refine ⟨rfl, rfl, rfl, rfl, ?_⟩
  unfold check_future_end
  rw [if_pos hfut]
  have hcond : (false || (!unpushed && !lastFlag && !firstFlag)) = false := by
    cases unpushed <;> cases lastFlag <;> cases firstFlag <;> simp_all
  rw [hcond]
  simp only [Bool.false_eq_true, if_false]

/-- Witness for claim C6's amended statement at a concrete input: 5 commits
selected with `--last`, start Thursday 1970-01-01, "now" one day later. -/
theorem c6_auto_end_clamped_witness :
    (auto_end ⟨0, 0, 0, 0⟩ 5).day = (0 : Int) + max 1 ((5 : Int) - 1) ∧
    (auto_end ⟨0, 0, 0, 0⟩ 5).hour = 23 ∧
    (auto_end ⟨0, 0, 0, 0⟩ 5).minute = 59 ∧
    (auto_end ⟨0, 0, 0, 0⟩ 5).second = 59 ∧
    check_future_end false false true false ⟨0, 0, 0, 0⟩
        (auto_end ⟨0, 0, 0, 0⟩ 5) ⟨1, 0, 0, 0⟩ false =
      (if toSeconds (⟨0, 0, 0, 0⟩ : PyDateTime) >
          toSeconds (⟨1, 0, 0, 0⟩ : PyDateTime) then DateCheck.failed
        else DateCheck.proceed ⟨1, 0, 0, 0⟩) :=
  c6_auto_end_clamped ⟨0, 0, 0, 0⟩ ⟨1, 0, 0, 0⟩ 5 false true false false
    (by decide) (by decide)

/-! ## Commit selection (core.py lines 6-28, main.py lines 194-210) -/

/-- `core.get_commits(count, reverse_order)` applied to the newest-first
commit list that `git rev-list` returns (the `unpushed_only` flag only
selects which list the git oracle produces, so the list is a parameter
here).  `if count:` is Python truthiness: `None` and `0` both skip the
slice `commits[:count]`. -/
def get_commits (history : List String) (count : Option Nat)
    (reverse_order : Bool) : List String :=
  let commits := history
  let commits :=
    match count with
    | none => commits
    | some c => if c ≠ 0 then commits.take c else commits
  if reverse_order then commits.reverse else commits

/-- main.py line 195: `--last N` selects
`get_commits(count=N, reverse_order=True)`. -/
def select_last_n (history : List String) (n : Nat) : List String :=
  get_commits history (some n) true

/-- main.py lines 203-204: `--first N` takes the oldest `N` commits of the
ancestor-to-descendant list (`all_commits[:args.first]` when at least `N`
exist, otherwise the whole list — exactly `List.take`). -/
def select_first_n (history : List String) (n : Nat) : List String :=
  (get_commits history none true).take n

/-- Taking the length of the right summand from a reversed append yields
the reversed right summand. -/
theorem rev_take_aux (l₁ l₂ : List String) :
    (l₁ ++ l₂).reverse.take l₂.length = l₂.reverse := by
  rw [List.reverse_append]
  exact List.take_left' (by rw [List.length_reverse])

/-- Claim C8: for a duplicate-free history of `totalCommits` commits and
`0 < n ≤ totalCommits`, the commits selected by `--last n` and those
selected by `--first (totalCommits - n)` are disjoint and together cover
the entire history — no overlap and no gap. -/
theorem c8_selection_partitions (history : List String) (n : Nat)
    (hnd : history.Nodup) (hpos : 0 < n) (hle : n ≤ history.length) :
    List.Disjoint (select_last_n history n)
        (select_first_n history (history.length - n)) ∧
    ∀ x, x ∈ history ↔
      x ∈ select_last_n history n ∨
      x ∈ select_first_n history (history.length - n) := by
  have hne : n ≠ 0 := Nat.pos_iff_ne_zero.mp hpos
  have hlast : select_last_n history n = (history.take n).reverse := by
    simp [select_last_n, get_commits, hne]
  have key : history.reverse.take (history.length - n) =
      (history.drop n).reverse := by
    have h2 := rev_take_aux (history.take n) (history.drop n)
    rw [List.take_append_drop] at h2
    rwa [List.length_drop] at h2
  have hfirst : select_first_n history (history.length - n) =
      (history.drop n).reverse := key
  constructor
  · intro a ha hb
    rw [hlast, List.mem_reverse] at ha
    rw [hfirst, List.mem_reverse] at hb
    exact List.disjoint_take_drop hnd (le_refl n) ha hb
  · intro x
    rw [hlast, hfirst, List.mem_reverse, List.mem_reverse]
    conv_lhs => rw [← List.take_append_drop n history]
    exact List.mem_append

/-- Witness for claim C8 at a concrete input: the three-commit history
`["c", "b", "a"]` (newest first) split as last 1 plus first 2. -/
theorem c8_selection_partitions_witness :
    List.Disjoint (select_last_n ["c", "b", "a"] 1)
        (select_first_n ["c", "b", "a"] ((["c", "b", "a"] : List String).length - 1)) ∧
    ∀ x, x ∈ (["c", "b", "a"] : List String) ↔
      x ∈ select_last_n ["c", "b", "a"] 1 ∨
      x ∈ select_first_n ["c", "b", "a"] ((["c", "b", "a"] : List String).length - 1) :=
  c8_selection_partitions ["c", "b", "a"] 1 (by decide) (by decide) (by decide)

/-- Claim C9: `get_commits` with `count = 0` skips the `commits[:count]`
slice — Python `if count:` treats `0` like `None` — so a "last 0" request
returns the entire commit list rather than none of it. -/
theorem c9_count_zero_selects_all (history : List String)
    (reverse_order : Bool) :
    get_commits history (some 0) reverse_order =
      (if reverse_order then history.reverse else history) :=
  rfl

/-! ## Revert (core.py lines 163-229, claim C10) -/

/-- Python's substring test `needle in line`. -/
def strContains (needle line : String) : Bool :=
  line.toList.tails.any (fun t => needle.toList.isPrefixOf t)

/-- The record `core.detect_last_filter_branch` builds: the reflog index
of the first line containing the rewrite marker, the ref `HEAD@{index}`
(the rewritten state) and the target `HEAD@{index+1}` (the state before
the rewrite). -/
structure ReflogOp where
  index : Nat
  ref : Nat
  target : Nat
deriving Repr, DecidableEq

/-- core.py lines 163-188: scan the reflog for the first line containing
"filter-branch: rewrite"; return `None` when no line matches (or the
reflog cannot be read, which the caller cannot distinguish). -/
def detect_last_filter_branch (reflog : List String) : Option ReflogOp :=
  (reflog.findIdx? (fun line => strContains "filter-branch: rewrite" line)).map
    (fun i => ⟨i, i, i + 1⟩)

/-- The repository mutations `revert_last_operation` can issue, in
order. -/
inductive GitAction
  | createBackupBranch
  | stashPush
  | resetHard (target : Nat)
  | stashPop
deriving Repr, DecidableEq

/-- The dictionary `revert_last_operation` returns, restricted to the keys
the caller reads. -/
structure RevertResult where
  success : Bool
  backup : Option String
deriving Repr, DecidableEq

/-- core.py lines 204-229: `revert_last_operation(no_backup)`.  The git
oracle is abstracted by `backup_ok` (does `git branch` succeed) and
`reset_ok` (does `git reset --hard` succeed); `git stash push` and
`git stash pop` go through `subprocess.call`, whose failures the code
ignores.  The second component lists every repository mutation issued, in
order. -/
def revert_last_operation (reflog : List String) (no_backup : Bool)
    (backup_ok reset_ok : Bool) (backup_name : String) :
    RevertResult × List GitAction :=
  match detect_last_filter_branch reflog with
  | none => ({ success := false, backup := none }, [])
  | some op =>
    let backup : Option String :=
      if no_backup then none
      else if backup_ok then some backup_name else none
    let backup_actions : List GitAction :=
      if no_backup then [] else [.createBackupBranch]
    if reset_ok then
      ({ success := true, backup := backup },
        backup_actions ++ [.stashPush, .resetHard op.target, .stashPop])
    else
      ({ success := false, backup := backup },
        backup_actions ++ [.stashPush, .resetHard op.target])

/-- Claim C10: when no filter-branch rewrite entry is found in the reflog,
`revert_last_operation` returns a failure result and performs no
repository mutation at all — no backup branch, no stash push, no reset. -/
theorem c10_revert_without_prior_op (reflog : List String)
    (no_backup backup_ok reset_ok : Bool) (backup_name : String)
    (hnone : detect_last_filter_branch reflog = none) :
    revert_last_operation reflog no_backup backup_ok reset_ok backup_name =
      ({ success := false, backup := none }, []) := by
  unfold revert_last_operation
  rw [hnone]

/-- Witness for claim C10 at a concrete reflog without any filter-branch
entry. -/
theorem c10_revert_without_prior_op_witness :
    revert_last_operation ["commit: initial", "checkout: moving to master"]
        false true true "gitfucktime-backup-0" =
      ({ success := false, backup := none }, []) :=
  c10_revert_without_prior_op ["commit: initial", "checkout: moving to master"]
    false true true "gitfucktime-backup-0" (by decide)

/-! ## Exit behaviour of the entry point (main.py lines 60-397, claim C7)

`main` never calls `sys.exit` and never re-raises: every handled error
branch is `print_error(...); return`, and a Python process whose `main`
returns normally exits with code 0.  The one nonzero exit among the
modelled paths is an uncaught exception: the timestamp-generation loop at
main.py line 353 calls `generate_work_hours_timestamp(start_date,
end_date, max_time=now)` while utils.py line 18 declares no `max_time`
parameter, so reaching generation raises `TypeError` and the process
exits 1. -/

/-- How one run of `main` ends. -/
inductive MainOutcome
  | viewShown
  | revertReported (ok : Bool)
  | fetchFailed
  | noCommits
  | invalidStartDate
  | invalidEndDate
  | promptAbandoned
  | startAfterEnd
  | conflictingFlags
  | cancelled
  | startAfterNow
  | generationTypeError
deriving Repr, DecidableEq

/-- Python truthiness of an optional integer flag (`if args.last:`):
`None` and `0` are falsy. -/
def optTruthy (o : Option Nat) : Bool :=
  match o with
  | none => false
  | some c => c ≠ 0

/-- Command-line arguments as `main` consumes them.  A date argument is
`none` when absent, `some none` when present but rejected by
`strptime(.., "%Y-%m-%d")`, and `some (some d)` when parsed. -/
structure MainArgs where
  start : Option (Option PyDateTime)
  endArg : Option (Option PyDateTime)
  unpushed : Bool
  lastArg : Option Nat
  firstArg : Option Nat
  view : Bool
  revert : Bool
deriving Repr, DecidableEq

/-- Everything one run obtains from outside: the git oracle, the clock and
the interactive prompts. -/
structure MainWorld where
  revert_success : Bool
  fetch_ok : Bool
  commits : List String
  auto_start : Option PyDateTime
  now : PyDateTime
  confirm_future : Bool
  parent_date : Option PyDateTime
  confirm_parent : Bool
  divergence : Option (Nat × Nat)
  confirm_diverge : Bool
deriving Repr, DecidableEq

/-- main.py lines 60-397, non-interactive paths, in source order: view,
revert, fetch, empty selection, date parsing, start fallback
(`w.auto_start` covers both the anchor-derived date and the prompt, `none`
meaning the prompt was abandoned), end auto-derivation, `start > end`,
conflicting `--last`/`--first`, the future-end check, the
start-before-parent confirmation, the divergence confirmation, and
finally the generation loop, which in this packaged entry point raises
`TypeError` (exit code 1) before any oracle call. -/
def main_run (a : MainArgs) (w : MainWorld) : MainOutcome × Nat :=
  if a.view then (.viewShown, 0)
  else if a.revert then (.revertReported w.revert_success, 0)
  else if !w.fetch_ok then (.fetchFailed, 0)
  else if w.commits.length = 0 then (.noCommits, 0)
  else
    match a.start with
    | some none => (.invalidStartDate, 0)
    | _ =>
      match a.endArg with
      | some none => (.invalidEndDate, 0)
      | _ =>
        let startOpt : Option PyDateTime :=
          match a.start with
          | some (some d) => some d
          | _ => w.auto_start
        match startOpt with
        | none => (.promptAbandoned, 0)
        | some start_date =>
          let end_date :=
            match a.endArg with
            | some (some d) => replaceTime d 23 59 59
            | _ => auto_end start_date w.commits.length
          if toSeconds start_date > toSeconds end_date then (.startAfterEnd, 0)
          else if optTruthy a.lastArg && optTruthy a.firstArg then
            (.conflictingFlags, 0)
          else
            match check_future_end a.endArg.isSome a.unpushed
                (optTruthy a.lastArg) (optTruthy a.firstArg)
                start_date end_date w.now w.confirm_future with
            | .cancelled => (.cancelled, 0)
            | .failed => (.startAfterNow, 0)
            | .proceed _ =>
              let parentCancel : Bool :=
                match w.parent_date with
                | some p =>
                  decide (toSeconds start_date < toSeconds p) && !w.confirm_parent
                | none => false
              if parentCancel then (.cancelled, 0)
              else
                let divergeCancel : Bool :=
                  match w.divergence with
                  | some (ahead, behind) =>
                    (decide (ahead > 50) || decide (behind > 50)) &&
                      !w.confirm_diverge
                  | none => false
                if divergeCancel then (.cancelled, 0)
                else (.generationTypeError, 1)

/-- Report of `core.run_filter_branch` (core.py lines 120-150): the single
oracle invocation sits in `try/except subprocess.CalledProcessError`, and
either way the function returns normally to a caller that also returns,
so the process exit code is 0 whether or not the oracle succeeds.  This is
the path the standalone script (whose generation call is the well-formed
two-argument one) actually reaches. -/
inductive FilterBranchReport
  | succeeded
  | reportedError
deriving Repr, DecidableEq

/-- core.py lines 120-150 as seen by the exit code: report plus the exit
code of the enclosing `main` return. -/
def run_filter_branch_exit (oracle_ok : Bool) : FilterBranchReport × Nat :=
  (if oracle_ok then .succeeded else .reportedError, 0)

/-- Claim C7 fails on the code: an invalid `--start` date is a validation
failure, yet `main` prints the error and returns normally, so the process
exits 0 — not 1 as claimed. -/
theorem c7_validation_failure_exits_zero :
    main_run
        { start := some none, endArg := none, unpushed := false,
          lastArg := none, firstArg := none, view := false, revert := false }
        { revert_success := true, fetch_ok := true, commits := ["c1"],
          auto_start := none, now := ⟨1, 0, 0, 0⟩, confirm_future := false,
          parent_date := none, confirm_parent := false, divergence := none,
          confirm_diverge := false } =
      (MainOutcome.invalidStartDate, 0) := by
  rfl

/-- Claim C7, amended: every path that returns from `main` exits 0 —
success-as-no-op, every validation failure, a failed revert, and
user cancellation alike (errors are only printed); the one nonzero exit is
the uncaught `TypeError` when the packaged entry point reaches timestamp
generation, which happens before any oracle call; and where the oracle is
reached (the standalone script's well-formed call chain), its failure is
caught and the process also exits 0. -/
theorem c7_exit_codes :
    (∀ (a : MainArgs) (w : MainWorld),
      (main_run a w).2 =
        if (main_run a w).1 = MainOutcome.generationTypeError then 1 else 0) ∧
    (∀ oracle_ok : Bool, (run_filter_branch_exit oracle_ok).2 = 0) := by
  constructor
  · intro a w
    unfold main_run
    repeat' (first | rfl | (dsimp only) | split)
  · intro oracle_ok
    rfl

end GitFuckTime
